import Mathlib

/-!
Verification development for the data-access layer in src/src/lib/supabase.ts.

The file is a thin client around the supabase SDK: record shapes mirroring
the database schema, and one exported function per query, mutation or
authentication call.  We embed the runtime behaviour of every exported
operation.  The backend (SDK plus the remote function endpoint) is an
abstract oracle; each operation is a computation that emits the backend
requests it performs, the console.error log entries it writes, and either a
resolved value or a thrown error.  Runtime values flowing through the client
are untyped JSON (TypeScript interfaces are erased at runtime and the code
never parses or validates rows); we model them with a small Json type.
-/

namespace Supa

/-- Untyped runtime JSON values (numbers restricted to integers, which covers
every value this client produces itself). -/
inductive Json where
  | null : Json
  | bool : Bool → Json
  | num : Int → Json
  | str : String → Json
  | arr : List Json → Json
  | obj : List (String × Json) → Json
deriving Repr

/-- JavaScript truthiness on our Json values (undefined is conflated with
null, which has the same truthiness). -/
def jsTruthy : Json → Bool
  | .null => false
  | .bool b => b
  | .num n => n != 0
  | .str s => s != ""
  | .arr _ => true
  | .obj _ => true

/-- The JavaScript expression a || b on Json values. -/
def jsOr (a b : Json) : Json := if jsTruthy a then a else b

/-- Property access a.k, yielding null for a missing key or a non-object
(JavaScript undefined is conflated with null). -/
def jsGet : Json → String → Json
  | .obj fields, k =>
      match fields.find? (fun p => p.1 == k) with
      | some p => p.2
      | none => Json.null
  | _, _ => Json.null

/-- The category union type used by Task and ScoreHistory. -/
inductive Category where
  | study | discipline | events
deriving Repr, DecidableEq

/-- The difficulty union type of Task. -/
inductive Difficulty where
  | easy | medium | hard
deriving Repr, DecidableEq

/-- The status union type of Task. -/
inductive TaskStatus where
  | active | inactive
deriving Repr, DecidableEq

/-- The Cadet interface: a participant record with a point-scoring total.
Optional interface fields become Option. -/
structure Cadet where
  id : String
  auth_user_id : Option String
  name : String
  email : String
  phone : Option String
  platoon : String
  squad : Int
  avatar_url : Option String
  rank : Option Int
  total_score : Int
  join_date : Option String
  created_at : Option String
  updated_at : Option String
deriving Repr

/-- The Task interface: an assignable activity with points, difficulty and
deadline. -/
structure Task where
  id : String
  title : String
  description : String
  category : Category
  points : Int
  difficulty : Difficulty
  deadline : String
  status : Option TaskStatus
  created_by : Option String
  created_at : Option String
  updated_at : Option String
  is_active : Bool
deriving Repr

/-- The News interface. -/
structure News where
  id : String
  title : String
  content : String
  author : String
  is_main : Option Bool
  background_image_url : Option String
  images : Option (List Json)
  created_by : Option String
  created_at : String
  updated_at : Option String
deriving Repr

/-- The Achievement interface: manually granted badges. -/
structure Achievement where
  id : String
  title : String
  description : String
  category : String
  icon : Option String
  color : Option String
  created_at : Option String
deriving Repr

/-- The Score interface: the per-cadet aggregate points record with its
three category fields study_score, discipline_score and events_score. -/
structure Score where
  id : String
  cadet_id : String
  study_score : Int
  discipline_score : Int
  events_score : Int
  created_at : Option String
  updated_at : Option String
deriving Repr

/-- The AutoAchievement interface: badges granted by rule-based criteria. -/
structure AutoAchievement where
  id : String
  title : String
  description : String
  icon : Option String
  color : Option String
  requirement_type : String
  requirement_value : Int
  requirement_category : Option String
  created_at : Option String
deriving Repr

/-- The CadetAchievement interface: a badge award joined with its badge. -/
structure CadetAchievement where
  id : String
  cadet_id : String
  achievement_id : Option String
  auto_achievement_id : Option String
  awarded_date : Option String
  awarded_by : Option String
  achievement : Option Achievement
  auto_achievement : Option AutoAchievement
deriving Repr

/-- The ScoreHistory interface: one point-award event of a cadet. -/
structure ScoreHistory where
  id : String
  cadet_id : String
  category : Category
  points : Int
  description : String
  awarded_by : Option String
  created_at : String
deriving Repr

/-- An error object produced by the supabase SDK (the client only logs and
rethrows these, so only the fields it could observe are kept). -/
structure SupaError where
  message : String
  code : String
deriving Repr, DecidableEq

/-- The database operation of a table request built with the query builder. -/
inductive DbOp where
  /-- .select(columns) -/
  | select : String → DbOp
  /-- .update(payload) followed by .select() when returning is true -/
  | update : List (String × Json) → Bool → DbOp
  /-- .delete() -/
  | delete : DbOp
deriving Repr

/-- One table request assembled by a supabase query-builder chain:
table name, operation, the .eq equality filters in chain order, the
.order clause (column, ascending flag) and whether .single() was applied. -/
structure TableQuery where
  table : String
  op : DbOp
  filters : List (String × String)
  order : Option (String × Bool)
  single : Bool
deriving Repr

/-- One authentication request to supabase.auth. -/
inductive AuthRequest where
  | signUp : String → String → AuthRequest
  | signInWithPassword : String → String → AuthRequest
  | signOut : AuthRequest
  | getUser : AuthRequest
deriving Repr, DecidableEq

/-- One HTTP request issued with fetch.  The body is the JSON value whose
serialisation JSON.stringify would send. -/
structure HttpRequest where
  method : String
  url : String
  headers : List (String × String)
  body : Json
deriving Repr

/-- Any backend request the module can make. -/
inductive Req where
  | table : TableQuery → Req
  | auth : AuthRequest → Req
  | http : HttpRequest → Req
deriving Repr

/-- Response of a table request: the data value (null on error or no
content) and an optional error, as destructured by the client. -/
structure SupaResponse where
  data : Json
  error : Option SupaError

/-- Response of an auth call: a data value and an optional error. -/
structure AuthResponse where
  data : Json
  error : Option SupaError

/-- Response of a fetch call: the ok flag and the parsed JSON body
returned by response.json(). -/
structure FetchResponse where
  ok : Bool
  jsonBody : Json

/-- The abstract backend: how the remote service answers each request.
Operations receive it as an oracle; nothing is assumed about it unless a
theorem states a hypothesis. -/
structure Backend where
  query : TableQuery → SupaResponse
  auth : AuthRequest → AuthResponse
  http : HttpRequest → FetchResponse

/-- A value thrown by an operation: either a rethrown SDK error object, or
a freshly constructed JavaScript Error whose argument is kept as a Json
value (new Error in addCadetByAdmin). -/
inductive JsError where
  | supa : SupaError → JsError
  | jsNew : Json → JsError
deriving Repr

/-- A console.error log entry: the fixed label string and the logged
error object. -/
structure LogEntry where
  label : String
  err : SupaError
deriving Repr, DecidableEq

/-- Outcome of running one operation against a backend: the settled value
or thrown error, the backend requests performed in order, and the log. -/
structure RunResult (α : Type) where
  result : Except JsError α
  requests : List Req
  logs : List LogEntry

/-- The effect monad of the module: a computation reads the backend oracle
and produces a result together with its request trace and log. -/
def M (α : Type) : Type := Backend → RunResult α

def M.pure (a : α) : M α := fun _ => ⟨.ok a, [], []⟩

def M.bind (x : M α) (f : α → M β) : M β := fun b =>
  match x b with
  | ⟨.ok a, reqs, logs⟩ =>
      let r := f a b
      ⟨r.result, reqs ++ r.requests, logs ++ r.logs⟩
  | ⟨.error e, reqs, logs⟩ => ⟨.error e, reqs, logs⟩

instance : Monad M where
  pure := M.pure
  bind := M.bind

/-- await of a query-builder chain: performs the table request. -/
def callTable (q : TableQuery) : M SupaResponse :=
  fun b => ⟨.ok (b.query q), [.table q], []⟩

/-- await of a supabase.auth call: performs the auth request. -/
def callAuth (a : AuthRequest) : M AuthResponse :=
  fun b => ⟨.ok (b.auth a), [.auth a], []⟩

/-- await fetch(...): performs the HTTP request. -/
def callHttp (h : HttpRequest) : M FetchResponse :=
  fun b => ⟨.ok (b.http h), [.http h], []⟩

/-- console.error(label, e). -/
def logError (label : String) (e : SupaError) : M Unit :=
  fun _ => ⟨.ok (), [], [⟨label, e⟩]⟩

/-- throw e. -/
def throwErr (e : JsError) : M α :=
  fun _ => ⟨.error e, [], []⟩

/-- The table request built by getCadets. -/
def cadetsQuery : TableQuery :=
  { table := "cadets", op := .select "*", filters := [],
    order := some ("total_score", false), single := false }

/-- getCadets: select all cadets ordered by total_score descending,
log and rethrow on error, otherwise resolve data or the empty array. -/
def getCadets : M Json := do
  let resp ← callTable cadetsQuery
  match resp.error with
  | some e =>
      logError "Error fetching cadets:" e
      throwErr (.supa e)
  | none => pure (jsOr resp.data (Json.arr []))

/-- The table request built by getTasks. -/
def tasksQuery : TableQuery :=
  { table := "tasks", op := .select "*", filters := [("status", "active")],
    order := some ("created_at", false), single := false }

/-- getTasks: select tasks with status active ordered by created_at
descending, log and rethrow on error, otherwise data or the empty array. -/
def getTasks : M Json := do
  let resp ← callTable tasksQuery
  match resp.error with
  | some e =>
      logError "Error fetching tasks:" e
      throwErr (.supa e)
  | none => pure (jsOr resp.data (Json.arr []))

/-- The table request built by getNews. -/
def newsQuery : TableQuery :=
  { table := "news", op := .select "*", filters := [],
    order := some ("created_at", false), single := false }

/-- getNews. -/
def getNews : M Json := do
  let resp ← callTable newsQuery
  match resp.error with
  | some e =>
      logError "Error fetching news:" e
      throwErr (.supa e)
  | none => pure (jsOr resp.data (Json.arr []))

/-- The table request built by getAchievements. -/
def achievementsQuery : TableQuery :=
  { table := "achievements", op := .select "*", filters := [],
    order := some ("created_at", false), single := false }

/-- getAchievements. -/
def getAchievements : M Json := do
  let resp ← callTable achievementsQuery
  match resp.error with
  | some e =>
      logError "Error fetching achievements:" e
      throwErr (.supa e)
  | none => pure (jsOr resp.data (Json.arr []))

/-- The table request built by getAutoAchievements. -/
def autoAchievementsQuery : TableQuery :=
  { table := "auto_achievements", op := .select "*", filters := [],
    order := some ("created_at", false), single := false }

/-- getAutoAchievements. -/
def getAutoAchievements : M Json := do
  let resp ← callTable autoAchievementsQuery
  match resp.error with
  | some e =>
      logError "Error fetching auto achievements:" e
      throwErr (.supa e)
  | none => pure (jsOr resp.data (Json.arr []))

/-- The template-literal column list of getCadetAchievements, embedding the
achievement and auto_achievement joins. -/
def cadetAchievementsColumns : String :=
  "\n      *,\n      achievement:achievements(*),\n      auto_achievement:auto_achievements(*)\n    "

/-- The table request built by getCadetAchievements for a given cadetId. -/
def cadetAchievementsQuery (cadetId : String) : TableQuery :=
  { table := "cadet_achievements", op := .select cadetAchievementsColumns,
    filters := [("cadet_id", cadetId)],
    order := some ("awarded_date", false), single := false }

/-- getCadetAchievements. -/
def getCadetAchievements (cadetId : String) : M Json := do
  let resp ← callTable (cadetAchievementsQuery cadetId)
  match resp.error with
  | some e =>
      logError "Error fetching cadet achievements:" e
      throwErr (.supa e)
  | none => pure (jsOr resp.data (Json.arr []))

/-- The table request built by getCadetScores for a given cadetId:
a .single() select on scores filtered by cadet_id. -/
def scoresQuery (cadetId : String) : TableQuery :=
  { table := "scores", op := .select "*", filters := [("cadet_id", cadetId)],
    order := none, single := true }

/-- getCadetScores: single-row select of the score record of a cadet,
log and rethrow on error, otherwise resolve data as returned. -/
def getCadetScores (cadetId : String) : M Json := do
  let resp ← callTable (scoresQuery cadetId)
  match resp.error with
  | some e =>
      logError "Error fetching cadet scores:" e
      throwErr (.supa e)
  | none => pure resp.data

/-- The table request built by getScoreHistory for a given cadetId:
a select on score_history filtered by cadet_id, newest first. -/
def scoreHistoryQuery (cadetId : String) : TableQuery :=
  { table := "score_history", op := .select "*",
    filters := [("cadet_id", cadetId)],
    order := some ("created_at", false), single := false }

/-- getScoreHistory. -/
def getScoreHistory (cadetId : String) : M Json := do
  let resp ← callTable (scoreHistoryQuery cadetId)
  match resp.error with
  | some e =>
      logError "Error fetching score history:" e
      throwErr (.supa e)
  | none => pure (jsOr resp.data (Json.arr []))

/-- The two environment variables wired at module load
(VITE_SUPABASE_URL and VITE_SUPABASE_ANON_KEY). -/
structure Env where
  supabaseUrl : String
  supabaseAnonKey : String
deriving Repr, DecidableEq

/-- The cadetData parameter shape of addCadetByAdmin. -/
structure CadetPayload where
  name : String
  email : String
  password : String
  platoon : String
  squad : Int
  avatar_url : Option String
deriving Repr, DecidableEq

/-- JSON.stringify(cadetData) as a Json value; an undefined avatar_url is
omitted, as JSON.stringify omits undefined properties. -/
def jsonOfCadetPayload (c : CadetPayload) : Json :=
  .obj ([("name", .str c.name), ("email", .str c.email),
         ("password", .str c.password), ("platoon", .str c.platoon),
         ("squad", .num c.squad)] ++
    (match c.avatar_url with
     | some u => [("avatar_url", Json.str u)]
     | none => []))

/-- The fetch request built by addCadetByAdmin: a POST to the create-cadet
edge function with the JSON headers and the serialised cadetData body. -/
def createCadetRequest (env : Env) (cadetData : CadetPayload) : HttpRequest :=
  { method := "POST",
    url := env.supabaseUrl ++ "/functions/v1/create-cadet",
    headers := [("Content-Type", "application/json"),
                ("Authorization", "Bearer " ++ env.supabaseAnonKey)],
    body := jsonOfCadetPayload cadetData }

/-- addCadetByAdmin: calls the edge function to create the cadet with its
auth user; on a non-ok response throws a fresh Error built from the error
field of the response body (or the fallback message), without logging;
otherwise resolves the cadet field of the response body. -/
def addCadetByAdmin (env : Env) (cadetData : CadetPayload) : M Json := do
  let response ← callHttp (createCadetRequest env cadetData)
  if !response.ok then
    let errorData := response.jsonBody
    throwErr (.jsNew (jsOr (jsGet errorData "error")
      (.str "Failed to create cadet")))
  else
    let result := response.jsonBody
    pure (jsGet result "cadet")

/-- The table request built by updateCadetByAdmin: .update(cadetData)
filtered by id, with .select().single() returning the updated row. -/
def updateCadetQuery (id : String) (cadetData : List (String × Json)) :
    TableQuery :=
  { table := "cadets", op := .update cadetData true,
    filters := [("id", id)], order := none, single := true }

/-- updateCadetByAdmin. -/
def updateCadetByAdmin (id : String) (cadetData : List (String × Json)) :
    M Json := do
  let resp ← callTable (updateCadetQuery id cadetData)
  match resp.error with
  | some e =>
      logError "Error updating cadet:" e
      throwErr (.supa e)
  | none => pure resp.data

/-- The table request built by deleteCadet: .delete() filtered by id. -/
def deleteCadetQuery (id : String) : TableQuery :=
  { table := "cadets", op := .delete, filters := [("id", id)],
    order := none, single := false }

/-- deleteCadet: resolves to undefined on success. -/
def deleteCadet (id : String) : M Unit := do
  let resp ← callTable (deleteCadetQuery id)
  match resp.error with
  | some e =>
      logError "Error deleting cadet:" e
      throwErr (.supa e)
  | none => pure ()

/-- The table request built by getCadetById: a .single() select on cadets
filtered by id. -/
def cadetByIdQuery (id : String) : TableQuery :=
  { table := "cadets", op := .select "*", filters := [("id", id)],
    order := none, single := true }

/-- getCadetById. -/
def getCadetById (id : String) : M Json := do
  let resp ← callTable (cadetByIdQuery id)
  match resp.error with
  | some e =>
      logError "Error fetching cadet:" e
      throwErr (.supa e)
  | none => pure resp.data

/-- signUp: supabase.auth.signUp with the given email and password. -/
def signUp (email password : String) : M Json := do
  let resp ← callAuth (.signUp email password)
  match resp.error with
  | some e =>
      logError "Error signing up:" e
      throwErr (.supa e)
  | none => pure resp.data

/-- signIn: supabase.auth.signInWithPassword. -/
def signIn (email password : String) : M Json := do
  let resp ← callAuth (.signInWithPassword email password)
  match resp.error with
  | some e =>
      logError "Error signing in:" e
      throwErr (.supa e)
  | none => pure resp.data

/-- signOut. -/
def signOut : M Unit := do
  let resp ← callAuth .signOut
  match resp.error with
  | some e =>
      logError "Error signing out:" e
      throwErr (.supa e)
  | none => pure ()

/-- getCurrentUser: resolves the user field destructured from the auth
data. -/
def getCurrentUser : M Json := do
  let resp ← callAuth .getUser
  match resp.error with
  | some e =>
      logError "Error getting current user:" e
      throwErr (.supa e)
  | none => pure (jsGet resp.data "user")

/-- The table a request addresses, none for auth and HTTP requests. -/
def Req.tableOf : Req → Option String
  | .table q => some q.table
  | _ => none

/-- Whether a request is a table write (an update or delete chain; a select
chain never writes). -/
def Req.isWrite : Req → Bool
  | .table q =>
      match q.op with
      | .select _ => false
      | _ => true
  | _ => false

/-- A backend respects eq filters when every row of a successful select
response satisfies each .eq filter of the request, holding exactly the
filtered string in the filtered column.  This is the documented filter
semantics of the SDK, stated as a hypothesis on the oracle. -/
def RespectsEqFilters (b : Backend) : Prop :=
  ∀ q : TableQuery, ∀ rows : List Json,
    (b.query q).error = none → (b.query q).data = Json.arr rows →
    ∀ r ∈ rows, ∀ p ∈ q.filters, jsGet r p.1 = Json.str p.2

/-- Documented .single() semantics of the SDK: a single-row request either
reports an error (as it does when no row matches, error code PGRST116) or
succeeds carrying a non-null row.  Stated as a hypothesis on the oracle. -/
def SingleSucceedsWithRow (b : Backend) : Prop :=
  ∀ q : TableQuery, q.single = true → (b.query q).error = none →
    (b.query q).data ≠ Json.null

/-- A sample environment for concrete instantiations. -/
def demoEnv : Env :=
  { supabaseUrl := "https://example.supabase.co", supabaseAnonKey := "anon" }

/-- A sample cadetData argument for concrete instantiations. -/
def demoPayload : CadetPayload :=
  { name := "Ivan", email := "ivan@example.com", password := "pw123",
    platoon := "1st", squad := 2, avatar_url := none }

/-- A sample backend on which every request succeeds with an empty list. -/
def emptyOkBackend : Backend :=
  { query := fun _ => ⟨Json.arr [], none⟩,
    auth := fun _ => ⟨Json.obj [], none⟩,
    http := fun _ => ⟨true, Json.obj []⟩ }

/-- A sample backend on which every SDK request reports the same error and
every fetch responds non-ok with an error field in the body. -/
def erroringBackend : Backend :=
  { query := fun _ => ⟨Json.null, some ⟨"boom", "500"⟩⟩,
    auth := fun _ => ⟨Json.null, some ⟨"boom", "500"⟩⟩,
    http := fun _ => ⟨false, Json.obj [("error", Json.str "boom")]⟩ }

/-- A sample backend on which every table request succeeds with a null
data value. -/
def nullOkBackend : Backend :=
  { query := fun _ => ⟨Json.null, none⟩,
    auth := fun _ => ⟨Json.null, none⟩,
    http := fun _ => ⟨true, Json.null⟩ }

/-- A sample backend on which every table request succeeds with one row. -/
def oneRowBackend : Backend :=
  { query := fun _ => ⟨Json.obj [("id", Json.str "x")], none⟩,
    auth := fun _ => ⟨Json.obj [], none⟩,
    http := fun _ => ⟨true, Json.obj []⟩ }

/-! Run characterisations: each operation applied to an arbitrary backend
equals an explicit case split on the response of its single request. -/

@[simp] theorem run_pure {α : Type} (a : α) (b : Backend) :
    (pure a : M α) b = ⟨.ok a, [], []⟩ := rfl

@[simp] theorem run_bind {α β : Type} (x : M α) (f : α → M β) (b : Backend) :
    (x >>= f) b = M.bind x f b := rfl

theorem RunResult.ext3 {α : Type} (r s : RunResult α)
    (h1 : r.result = s.result) (h2 : r.requests = s.requests)
    (h3 : r.logs = s.logs) : r = s := by
  cases r; cases s; cases h1; cases h2; cases h3; rfl

/-- Run characterisation of getCadets. -/
theorem getCadets_run (b : Backend) :
    getCadets b =
      match (b.query cadetsQuery).error with
      | some e => ⟨.error (.supa e), [.table cadetsQuery],
          [⟨"Error fetching cadets:", e⟩]⟩
      | none => ⟨.ok (jsOr (b.query cadetsQuery).data (Json.arr [])),
          [.table cadetsQuery], []⟩ := by
  cases h : (b.query cadetsQuery).error <;>
    simp [getCadets, M.bind, M.pure, callTable, logError, throwErr, h]

/-- Run characterisation of getTasks. -/
theorem getTasks_run (b : Backend) :
    getTasks b =
      match (b.query tasksQuery).error with
      | some e => ⟨.error (.supa e), [.table tasksQuery],
          [⟨"Error fetching tasks:", e⟩]⟩
      | none => ⟨.ok (jsOr (b.query tasksQuery).data (Json.arr [])),
          [.table tasksQuery], []⟩ := by
  cases h : (b.query tasksQuery).error <;>
    simp [getTasks, M.bind, M.pure, callTable, logError, throwErr, h]

/-- Run characterisation of getNews. -/
theorem getNews_run (b : Backend) :
    getNews b =
      match (b.query newsQuery).error with
      | some e => ⟨.error (.supa e), [.table newsQuery],
          [⟨"Error fetching news:", e⟩]⟩
      | none => ⟨.ok (jsOr (b.query newsQuery).data (Json.arr [])),
          [.table newsQuery], []⟩ := by
  cases h : (b.query newsQuery).error <;>
    simp [getNews, M.bind, M.pure, callTable, logError, throwErr, h]

/-- Run characterisation of getAchievements. -/
theorem getAchievements_run (b : Backend) :
    getAchievements b =
      match (b.query achievementsQuery).error with
      | some e => ⟨.error (.supa e), [.table achievementsQuery],
          [⟨"Error fetching achievements:", e⟩]⟩
      | none => ⟨.ok (jsOr (b.query achievementsQuery).data (Json.arr [])),
          [.table achievementsQuery], []⟩ := by
  cases h : (b.query achievementsQuery).error <;>
    simp [getAchievements, M.bind, M.pure, callTable, logError, throwErr, h]

/-- Run characterisation of getAutoAchievements. -/
theorem getAutoAchievements_run (b : Backend) :
    getAutoAchievements b =
      match (b.query autoAchievementsQuery).error with
      | some e => ⟨.error (.supa e), [.table autoAchievementsQuery],
          [⟨"Error fetching auto achievements:", e⟩]⟩
      | none => ⟨.ok (jsOr (b.query autoAchievementsQuery).data (Json.arr [])),
          [.table autoAchievementsQuery], []⟩ := by
  cases h : (b.query autoAchievementsQuery).error <;>
    simp [getAutoAchievements, M.bind, M.pure, callTable, logError,
      throwErr, h]

/-- Run characterisation of getCadetAchievements. -/
theorem getCadetAchievements_run (cadetId : String) (b : Backend) :
    getCadetAchievements cadetId b =
      match (b.query (cadetAchievementsQuery cadetId)).error with
      | some e => ⟨.error (.supa e), [.table (cadetAchievementsQuery cadetId)],
          [⟨"Error fetching cadet achievements:", e⟩]⟩
      | none =>
          ⟨.ok (jsOr (b.query (cadetAchievementsQuery cadetId)).data
            (Json.arr [])), [.table (cadetAchievementsQuery cadetId)], []⟩ := by
  cases h : (b.query (cadetAchievementsQuery cadetId)).error <;>
    simp [getCadetAchievements, M.bind, M.pure, callTable, logError,
      throwErr, h]

/-- Run characterisation of getCadetScores. -/
theorem getCadetScores_run (cadetId : String) (b : Backend) :
    getCadetScores cadetId b =
      match (b.query (scoresQuery cadetId)).error with
      | some e => ⟨.error (.supa e), [.table (scoresQuery cadetId)],
          [⟨"Error fetching cadet scores:", e⟩]⟩
      | none => ⟨.ok (b.query (scoresQuery cadetId)).data,
          [.table (scoresQuery cadetId)], []⟩ := by
  cases h : (b.query (scoresQuery cadetId)).error <;>
    simp [getCadetScores, M.bind, M.pure, callTable, logError, throwErr, h]

/-- Run characterisation of getScoreHistory. -/
theorem getScoreHistory_run (cadetId : String) (b : Backend) :
    getScoreHistory cadetId b =
      match (b.query (scoreHistoryQuery cadetId)).error with
      | some e => ⟨.error (.supa e), [.table (scoreHistoryQuery cadetId)],
          [⟨"Error fetching score history:", e⟩]⟩
      | none =>
          ⟨.ok (jsOr (b.query (scoreHistoryQuery cadetId)).data (Json.arr [])),
            [.table (scoreHistoryQuery cadetId)], []⟩ := by
  cases h : (b.query (scoreHistoryQuery cadetId)).error <;>
    simp [getScoreHistory, M.bind, M.pure, callTable, logError, throwErr, h]

/-- Run characterisation of addCadetByAdmin: one fetch; a fresh Error built
from the body on a non-ok response, the cadet field of the body otherwise;
no log entry in either case. -/
theorem addCadetByAdmin_run (env : Env) (cadetData : CadetPayload)
    (b : Backend) :
    addCadetByAdmin env cadetData b =
      if (b.http (createCadetRequest env cadetData)).ok then
        ⟨.ok (jsGet (b.http (createCadetRequest env cadetData)).jsonBody
          "cadet"), [.http (createCadetRequest env cadetData)], []⟩
      else
        ⟨.error (.jsNew (jsOr
            (jsGet (b.http (createCadetRequest env cadetData)).jsonBody
              "error") (.str "Failed to create cadet"))),
          [.http (createCadetRequest env cadetData)], []⟩ := by
  cases h : (b.http (createCadetRequest env cadetData)).ok <;>
    simp [addCadetByAdmin, M.bind, M.pure, callHttp, throwErr, h]

/-- Run characterisation of updateCadetByAdmin. -/
theorem updateCadetByAdmin_run (id : String)
    (cadetData : List (String × Json)) (b : Backend) :
    updateCadetByAdmin id cadetData b =
      match (b.query (updateCadetQuery id cadetData)).error with
      | some e => ⟨.error (.supa e), [.table (updateCadetQuery id cadetData)],
          [⟨"Error updating cadet:", e⟩]⟩
      | none => ⟨.ok (b.query (updateCadetQuery id cadetData)).data,
          [.table (updateCadetQuery id cadetData)], []⟩ := by
  cases h : (b.query (updateCadetQuery id cadetData)).error <;>
    simp [updateCadetByAdmin, M.bind, M.pure, callTable, logError,
      throwErr, h]

/-- Run characterisation of deleteCadet. -/
theorem deleteCadet_run (id : String) (b : Backend) :
    deleteCadet id b =
      match (b.query (deleteCadetQuery id)).error with
      | some e => ⟨.error (.supa e), [.table (deleteCadetQuery id)],
          [⟨"Error deleting cadet:", e⟩]⟩
      | none => ⟨.ok (), [.table (deleteCadetQuery id)], []⟩ := by
  cases h : (b.query (deleteCadetQuery id)).error <;>
    simp [deleteCadet, M.bind, M.pure, callTable, logError, throwErr, h]

/-- Run characterisation of getCadetById. -/
theorem getCadetById_run (id : String) (b : Backend) :
    getCadetById id b =
      match (b.query (cadetByIdQuery id)).error with
      | some e => ⟨.error (.supa e), [.table (cadetByIdQuery id)],
          [⟨"Error fetching cadet:", e⟩]⟩
      | none => ⟨.ok (b.query (cadetByIdQuery id)).data,
          [.table (cadetByIdQuery id)], []⟩ := by
  cases h : (b.query (cadetByIdQuery id)).error <;>
    simp [getCadetById, M.bind, M.pure, callTable, logError, throwErr, h]

/-- Run characterisation of signUp. -/
theorem signUp_run (email password : String) (b : Backend) :
    signUp email password b =
      match (b.auth (.signUp email password)).error with
      | some e => ⟨.error (.supa e), [.auth (.signUp email password)],
          [⟨"Error signing up:", e⟩]⟩
      | none => ⟨.ok (b.auth (.signUp email password)).data,
          [.auth (.signUp email password)], []⟩ := by
  cases h : (b.auth (.signUp email password)).error <;>
    simp [signUp, M.bind, M.pure, callAuth, logError, throwErr, h]

/-- Run characterisation of signIn. -/
theorem signIn_run (email password : String) (b : Backend) :
    signIn email password b =
      match (b.auth (.signInWithPassword email password)).error with
      | some e =>
          ⟨.error (.supa e), [.auth (.signInWithPassword email password)],
            [⟨"Error signing in:", e⟩]⟩
      | none => ⟨.ok (b.auth (.signInWithPassword email password)).data,
          [.auth (.signInWithPassword email password)], []⟩ := by
  cases h : (b.auth (.signInWithPassword email password)).error <;>
    simp [signIn, M.bind, M.pure, callAuth, logError, throwErr, h]

/-- Run characterisation of signOut. -/
theorem signOut_run (b : Backend) :
    signOut b =
      match (b.auth .signOut).error with
      | some e => ⟨.error (.supa e), [.auth .signOut],
          [⟨"Error signing out:", e⟩]⟩
      | none => ⟨.ok (), [.auth .signOut], []⟩ := by
  cases h : (b.auth .signOut).error <;>
    simp [signOut, M.bind, M.pure, callAuth, logError, throwErr, h]

/-- Run characterisation of getCurrentUser. -/
theorem getCurrentUser_run (b : Backend) :
    getCurrentUser b =
      match (b.auth .getUser).error with
      | some e => ⟨.error (.supa e), [.auth .getUser],
          [⟨"Error getting current user:", e⟩]⟩
      | none => ⟨.ok (jsGet (b.auth .getUser).data "user"),
          [.auth .getUser], []⟩ := by
  cases h : (b.auth .getUser).error <;>
    simp [getCurrentUser, M.bind, M.pure, callAuth, logError, throwErr, h]

/-! Claim theorems. -/

/-- C1 counterexample: the claim that every exported operation logs the
backend error and rethrows it unchanged fails on addCadetByAdmin.  On a
backend whose create-cadet endpoint responds non-ok with body containing
the field error = "boom", addCadetByAdmin writes no log entry at all and
throws a freshly constructed Error("boom"), not the backend response. -/
theorem addCadetByAdmin_no_log_and_fresh_error_on_failure :
    (addCadetByAdmin demoEnv demoPayload erroringBackend).logs = [] ∧
    (addCadetByAdmin demoEnv demoPayload erroringBackend).result =
      .error (.jsNew (.str "boom")) := by
  constructor <;> rfl

/-- C1 (amended): every SDK-backed operation, on a backend error e, writes
exactly one console.error entry carrying e and rethrows e itself unchanged;
addCadetByAdmin instead, on a non-ok fetch response, throws a freshly
constructed Error built from the error field of the response body (or the
fallback message) and writes no log entry.  No operation recovers or
retries. -/
theorem error_handling_log_rethrow_except_addCadetByAdmin :
    (∀ (b : Backend) (e : SupaError),
      (b.query cadetsQuery).error = some e →
        (getCadets b).result = .error (.supa e) ∧
        (getCadets b).logs = [⟨"Error fetching cadets:", e⟩]) ∧
    (∀ (b : Backend) (e : SupaError),
      (b.query tasksQuery).error = some e →
        (getTasks b).result = .error (.supa e) ∧
        (getTasks b).logs = [⟨"Error fetching tasks:", e⟩]) ∧
    (∀ (b : Backend) (e : SupaError),
      (b.query newsQuery).error = some e →
        (getNews b).result = .error (.supa e) ∧
        (getNews b).logs = [⟨"Error fetching news:", e⟩]) ∧
    (∀ (b : Backend) (e : SupaError),
      (b.query achievementsQuery).error = some e →
        (getAchievements b).result = .error (.supa e) ∧
        (getAchievements b).logs = [⟨"Error fetching achievements:", e⟩]) ∧
    (∀ (b : Backend) (e : SupaError),
      (b.query autoAchievementsQuery).error = some e →
        (getAutoAchievements b).result = .error (.supa e) ∧
        (getAutoAchievements b).logs =
          [⟨"Error fetching auto achievements:", e⟩]) ∧
    (∀ (cadetId : String) (b : Backend) (e : SupaError),
      (b.query (cadetAchievementsQuery cadetId)).error = some e →
        (getCadetAchievements cadetId b).result = .error (.supa e) ∧
        (getCadetAchievements cadetId b).logs =
          [⟨"Error fetching cadet achievements:", e⟩]) ∧
    (∀ (cadetId : String) (b : Backend) (e : SupaError),
      (b.query (scoresQuery cadetId)).error = some e →
        (getCadetScores cadetId b).result = .error (.supa e) ∧
        (getCadetScores cadetId b).logs =
          [⟨"Error fetching cadet scores:", e⟩]) ∧
    (∀ (cadetId : String) (b : Backend) (e : SupaError),
      (b.query (scoreHistoryQuery cadetId)).error = some e →
        (getScoreHistory cadetId b).result = .error (.supa e) ∧
        (getScoreHistory cadetId b).logs =
          [⟨"Error fetching score history:", e⟩]) ∧
    (∀ (id : String) (cadetData : List (String × Json)) (b : Backend)
        (e : SupaError),
      (b.query (updateCadetQuery id cadetData)).error = some e →
        (updateCadetByAdmin id cadetData b).result = .error (.supa e) ∧
        (updateCadetByAdmin id cadetData b).logs =
          [⟨"Error updating cadet:", e⟩]) ∧
    (∀ (id : String) (b : Backend) (e : SupaError),
      (b.query (deleteCadetQuery id)).error = some e →
        (deleteCadet id b).result = .error (.supa e) ∧
        (deleteCadet id b).logs = [⟨"Error deleting cadet:", e⟩]) ∧
    (∀ (id : String) (b : Backend) (e : SupaError),
      (b.query (cadetByIdQuery id)).error = some e →
        (getCadetById id b).result = .error (.supa e) ∧
        (getCadetById id b).logs = [⟨"Error fetching cadet:", e⟩]) ∧
    (∀ (email password : String) (b : Backend) (e : SupaError),
      (b.auth (.signUp email password)).error = some e →
        (signUp email password b).result = .error (.supa e) ∧
        (signUp email password b).logs = [⟨"Error signing up:", e⟩]) ∧
    (∀ (email password : String) (b : Backend) (e : SupaError),
      (b.auth (.signInWithPassword email password)).error = some e →
        (signIn email password b).result = .error (.supa e) ∧
        (signIn email password b).logs = [⟨"Error signing in:", e⟩]) ∧
    (∀ (b : Backend) (e : SupaError),
      (b.auth .signOut).error = some e →
        (signOut b).result = .error (.supa e) ∧
        (signOut b).logs = [⟨"Error signing out:", e⟩]) ∧
    (∀ (b : Backend) (e : SupaError),
      (b.auth .getUser).error = some e →
        (getCurrentUser b).result = .error (.supa e) ∧
        (getCurrentUser b).logs = [⟨"Error getting current user:", e⟩]) ∧
    (∀ (env : Env) (cadetData : CadetPayload) (b : Backend),
      (b.http (createCadetRequest env cadetData)).ok = false →
        (addCadetByAdmin env cadetData b).result =
          .error (.jsNew (jsOr
            (jsGet (b.http (createCadetRequest env cadetData)).jsonBody
              "error") (.str "Failed to create cadet"))) ∧
        (addCadetByAdmin env cadetData b).logs = []) := by
  refine ⟨?_, ?_, ?_, ?_, ?_, ?_, ?_, ?_, ?_, ?_, ?_, ?_, ?_, ?_, ?_, ?_⟩ <;>
    intros <;> rename_i h <;>
    simp only [getCadets_run, getTasks_run, getNews_run, getAchievements_run,
      getAutoAchievements_run, getCadetAchievements_run, getCadetScores_run,
      getScoreHistory_run, updateCadetByAdmin_run, deleteCadet_run,
      getCadetById_run, signUp_run, signIn_run, signOut_run,
      getCurrentUser_run, addCadetByAdmin_run, h] <;>
    simp

/-- C1 witness: the amended theorem instantiated on a concrete erroring
backend for getCadets. -/
theorem error_handling_log_rethrow_witness :
    (getCadets erroringBackend).result =
      .error (.supa ⟨"boom", "500"⟩) ∧
    (getCadets erroringBackend).logs =
      [⟨"Error fetching cadets:", ⟨"boom", "500"⟩⟩] :=
  error_handling_log_rethrow_except_addCadetByAdmin.1 erroringBackend
    ⟨"boom", "500"⟩ rfl

/-- C2: every exported operation, on every input and every backend,
performs exactly one backend request: never zero, never more than one,
and no repeat on failure. -/
theorem every_operation_performs_exactly_one_backend_request :
    (∀ b : Backend, (getCadets b).requests.length = 1) ∧
    (∀ b : Backend, (getTasks b).requests.length = 1) ∧
    (∀ b : Backend, (getNews b).requests.length = 1) ∧
    (∀ b : Backend, (getAchievements b).requests.length = 1) ∧
    (∀ b : Backend, (getAutoAchievements b).requests.length = 1) ∧
    (∀ (cadetId : String) (b : Backend),
      (getCadetAchievements cadetId b).requests.length = 1) ∧
    (∀ (cadetId : String) (b : Backend),
      (getCadetScores cadetId b).requests.length = 1) ∧
    (∀ (cadetId : String) (b : Backend),
      (getScoreHistory cadetId b).requests.length = 1) ∧
    (∀ (env : Env) (cadetData : CadetPayload) (b : Backend),
      (addCadetByAdmin env cadetData b).requests.length = 1) ∧
    (∀ (id : String) (cadetData : List (String × Json)) (b : Backend),
      (updateCadetByAdmin id cadetData b).requests.length = 1) ∧
    (∀ (id : String) (b : Backend),
      (deleteCadet id b).requests.length = 1) ∧
    (∀ (id : String) (b : Backend),
      (getCadetById id b).requests.length = 1) ∧
    (∀ (email password : String) (b : Backend),
      (signUp email password b).requests.length = 1) ∧
    (∀ (email password : String) (b : Backend),
      (signIn email password b).requests.length = 1) ∧
    (∀ b : Backend, (signOut b).requests.length = 1) ∧
    (∀ b : Backend, (getCurrentUser b).requests.length = 1) := by
  refine ⟨?_, ?_, ?_, ?_, ?_, ?_, ?_, ?_, ?_, ?_, ?_, ?_, ?_, ?_, ?_, ?_⟩ <;>
    intros <;>
    simp only [getCadets_run, getTasks_run, getNews_run, getAchievements_run,
      getAutoAchievements_run, getCadetAchievements_run, getCadetScores_run,
      getScoreHistory_run, addCadetByAdmin_run, updateCadetByAdmin_run,
      deleteCadet_run, getCadetById_run, signUp_run, signIn_run, signOut_run,
      getCurrentUser_run] <;>
    split <;> rfl

/-- The JSON serialisation of cadetData is lossless: distinct argument
records serialise to distinct bodies. -/
theorem jsonOfCadetPayload_lossless (c c' : CadetPayload)
    (h : jsonOfCadetPayload c = jsonOfCadetPayload c') : c = c' := by
  cases c with
  | mk n e p pl s a =>
    cases c' with
    | mk n' e' p' pl' s' a' =>
      cases a <;> cases a' <;>
        simp [jsonOfCadetPayload] at h <;> simp_all

/-- C3: every exported operation taking input forwards its arguments to
the backend verbatim inside its single request, on every input: the id
strings appear unchanged in the eq filters, the credentials unchanged in
the auth request, the update payload unchanged in the update request, and
cadetData serialised losslessly in the POST body.  No input is rejected,
normalised or causes a failure before the backend call: the request is
issued for every argument value. -/
theorem operations_forward_arguments_unmodified :
    (∀ (cadetId : String) (b : Backend),
      (getCadetAchievements cadetId b).requests =
        [.table { table := "cadet_achievements",
                  op := .select cadetAchievementsColumns,
                  filters := [("cadet_id", cadetId)],
                  order := some ("awarded_date", false), single := false }]) ∧
    (∀ (cadetId : String) (b : Backend),
      (getCadetScores cadetId b).requests =
        [.table { table := "scores", op := .select "*",
                  filters := [("cadet_id", cadetId)], order := none,
                  single := true }]) ∧
    (∀ (cadetId : String) (b : Backend),
      (getScoreHistory cadetId b).requests =
        [.table { table := "score_history", op := .select "*",
                  filters := [("cadet_id", cadetId)],
                  order := some ("created_at", false), single := false }]) ∧
    (∀ (env : Env) (cadetData : CadetPayload) (b : Backend),
      (addCadetByAdmin env cadetData b).requests =
        [.http { method := "POST",
                 url := env.supabaseUrl ++ "/functions/v1/create-cadet",
                 headers := [("Content-Type", "application/json"),
                   ("Authorization", "Bearer " ++ env.supabaseAnonKey)],
                 body := jsonOfCadetPayload cadetData }]) ∧
    (∀ c c' : CadetPayload,
      jsonOfCadetPayload c = jsonOfCadetPayload c' → c = c') ∧
    (∀ (id : String) (cadetData : List (String × Json)) (b : Backend),
      (updateCadetByAdmin id cadetData b).requests =
        [.table { table := "cadets", op := .update cadetData true,
                  filters := [("id", id)], order := none, single := true }]) ∧
    (∀ (id : String) (b : Backend),
      (deleteCadet id b).requests =
        [.table { table := "cadets", op := .delete, filters := [("id", id)],
                  order := none, single := false }]) ∧
    (∀ (id : String) (b : Backend),
      (getCadetById id b).requests =
        [.table { table := "cadets", op := .select "*",
                  filters := [("id", id)], order := none, single := true }]) ∧
    (∀ (email password : String) (b : Backend),
      (signUp email password b).requests =
        [.auth (.signUp email password)]) ∧
    (∀ (email password : String) (b : Backend),
      (signIn email password b).requests =
        [.auth (.signInWithPassword email password)]) := by
  refine ⟨?_, ?_, ?_, ?_, jsonOfCadetPayload_lossless, ?_, ?_, ?_, ?_, ?_⟩ <;>
    intros <;>
    simp only [getCadetAchievements_run, getCadetScores_run,
      getScoreHistory_run, addCadetByAdmin_run, updateCadetByAdmin_run,
      deleteCadet_run, getCadetById_run, signUp_run, signIn_run] <;>
    split <;> rfl

/-- C3 witness: the lossless-serialisation conjunct instantiated at a
concrete payload. -/
theorem operations_forward_arguments_unmodified_witness :
    demoPayload = demoPayload :=
  operations_forward_arguments_unmodified.2.2.2.2.1 demoPayload demoPayload
    rfl

/-- C4: addCadetByAdmin issues exactly one backend request, a POST to the
create-cadet edge function of the configured project URL, and issues no
table request at all, in particular no write to the cadets or scores
tables: the coordinated creation happens server-side. -/
theorem addCadetByAdmin_single_post_no_table_request :
    ∀ (env : Env) (cadetData : CadetPayload) (b : Backend),
      (addCadetByAdmin env cadetData b).requests =
        [.http (createCadetRequest env cadetData)] ∧
      (createCadetRequest env cadetData).method = "POST" ∧
      (createCadetRequest env cadetData).url =
        env.supabaseUrl ++ "/functions/v1/create-cadet" ∧
      ∀ r ∈ (addCadetByAdmin env cadetData b).requests,
        Req.tableOf r = none := by
  intro env cadetData b
  refine ⟨?_, rfl, rfl, ?_⟩ <;>
    simp only [addCadetByAdmin_run] <;> split <;>
    simp [Req.tableOf]

/-- C4 witness: instantiated at a concrete environment, payload and
backend, for the one request issued. -/
theorem addCadetByAdmin_single_post_no_table_request_witness :
    Req.tableOf (.http (createCadetRequest demoEnv demoPayload)) = none :=
  (addCadetByAdmin_single_post_no_table_request demoEnv demoPayload
      emptyOkBackend).2.2.2
    (.http (createCadetRequest demoEnv demoPayload))
    (by rw [addCadetByAdmin_run]; simp [emptyOkBackend])

/-- Rows resolved by getScoreHistory all carry the requested cadet_id, for
any backend respecting the eq-filter semantics of the SDK. -/
theorem getScoreHistory_rows_match_cadet (cadetId : String) (b : Backend)
    (hb : RespectsEqFilters b) (rows : List Json)
    (hres : (getScoreHistory cadetId b).result = .ok (.arr rows)) :
    ∀ r ∈ rows, jsGet r "cadet_id" = Json.str cadetId := by
  rw [getScoreHistory_run] at hres
  cases h : (b.query (scoreHistoryQuery cadetId)).error with
  | some e => rw [h] at hres; simp at hres
  | none =>
      rw [h] at hres
      simp only [jsOr] at hres
      split at hres
      · intro r hr
        simp at hres
        exact hb (scoreHistoryQuery cadetId) rows h hres r hr
          ("cadet_id", cadetId) (by simp [scoreHistoryQuery])
      · intro r hr
        simp at hres
        subst hres
        simp at hr

/-- C5: the score_history table is append-only from the point of view of
this client.  No exported operation other than getScoreHistory ever
addresses score_history in a request; the only request of getScoreHistory
is a select (never a write) filtered by cadet_id equal to the given
cadetId; and on any backend respecting the eq-filter semantics, every
entry it resolves carries that cadet_id. -/
theorem score_history_append_only_from_client :
    ((∀ b : Backend, ∀ r ∈ (getCadets b).requests,
        Req.tableOf r ≠ some "score_history") ∧
      (∀ b : Backend, ∀ r ∈ (getTasks b).requests,
        Req.tableOf r ≠ some "score_history") ∧
      (∀ b : Backend, ∀ r ∈ (getNews b).requests,
        Req.tableOf r ≠ some "score_history") ∧
      (∀ b : Backend, ∀ r ∈ (getAchievements b).requests,
        Req.tableOf r ≠ some "score_history") ∧
      (∀ b : Backend, ∀ r ∈ (getAutoAchievements b).requests,
        Req.tableOf r ≠ some "score_history") ∧
      (∀ (cadetId : String) (b : Backend),
        ∀ r ∈ (getCadetAchievements cadetId b).requests,
          Req.tableOf r ≠ some "score_history") ∧
      (∀ (cadetId : String) (b : Backend),
        ∀ r ∈ (getCadetScores cadetId b).requests,
          Req.tableOf r ≠ some "score_history") ∧
      (∀ (env : Env) (cadetData : CadetPayload) (b : Backend),
        ∀ r ∈ (addCadetByAdmin env cadetData b).requests,
          Req.tableOf r ≠ some "score_history") ∧
      (∀ (id : String) (cadetData : List (String × Json)) (b : Backend),
        ∀ r ∈ (updateCadetByAdmin id cadetData b).requests,
          Req.tableOf r ≠ some "score_history") ∧
      (∀ (id : String) (b : Backend), ∀ r ∈ (deleteCadet id b).requests,
        Req.tableOf r ≠ some "score_history") ∧
      (∀ (id : String) (b : Backend), ∀ r ∈ (getCadetById id b).requests,
        Req.tableOf r ≠ some "score_history") ∧
      (∀ (email password : String) (b : Backend),
        ∀ r ∈ (signUp email password b).requests,
          Req.tableOf r ≠ some "score_history") ∧
      (∀ (email password : String) (b : Backend),
        ∀ r ∈ (signIn email password b).requests,
          Req.tableOf r ≠ some "score_history") ∧
      (∀ b : Backend, ∀ r ∈ (signOut b).requests,
        Req.tableOf r ≠ some "score_history") ∧
      (∀ b : Backend, ∀ r ∈ (getCurrentUser b).requests,
        Req.tableOf r ≠ some "score_history")) ∧
    (∀ (cadetId : String) (b : Backend),
      (getScoreHistory cadetId b).requests =
        [.table (scoreHistoryQuery cadetId)] ∧
      Req.isWrite (.table (scoreHistoryQuery cadetId)) = false ∧
      (scoreHistoryQuery cadetId).filters = [("cadet_id", cadetId)]) ∧
    (∀ (cadetId : String) (b : Backend), RespectsEqFilters b →
      ∀ rows : List Json,
        (getScoreHistory cadetId b).result = .ok (.arr rows) →
        ∀ r ∈ rows, jsGet r "cadet_id" = Json.str cadetId) := by
  refine ⟨?_, ?_, fun cadetId b hb rows hres =>
    getScoreHistory_rows_match_cadet cadetId b hb rows hres⟩
  · refine ⟨?_, ?_, ?_, ?_, ?_, ?_, ?_, ?_, ?_, ?_, ?_, ?_, ?_, ?_, ?_⟩ <;>
      intros <;> rename_i r hr <;>
      simp only [getCadets_run, getTasks_run, getNews_run,
        getAchievements_run, getAutoAchievements_run,
        getCadetAchievements_run, getCadetScores_run, addCadetByAdmin_run,
        updateCadetByAdmin_run, deleteCadet_run, getCadetById_run,
        signUp_run, signIn_run, signOut_run, getCurrentUser_run] at hr <;>
      split at hr <;> simp at hr <;> subst hr <;>
      simp [Req.tableOf, cadetsQuery, tasksQuery, newsQuery,
        achievementsQuery, autoAchievementsQuery, cadetAchievementsQuery,
        scoresQuery, updateCadetQuery, deleteCadetQuery, cadetByIdQuery]
  · intro cadetId b
    refine ⟨?_, rfl, rfl⟩
    simp only [getScoreHistory_run]
    split <;> rfl

/-- C5 witness: the filtered-rows conjunct instantiated on a concrete
filter-respecting backend that returns the empty list. -/
theorem score_history_append_only_witness :
    ∀ r ∈ ([] : List Json), jsGet r "cadet_id" = Json.str "c1" :=
  score_history_append_only_from_client.2.2 "c1" emptyOkBackend
    (by intro q rows _ hd r hr p _
        simp [emptyOkBackend] at hd
        subst hd
        simp at hr)
    [] (by rfl)

/-- C6: getCadetScores requests exactly one matching row of the scores
table, never a list: its single request is a .single() select on scores
filtered by cadet_id equal to the given cadetId, and on success it
resolves the one record exactly as the backend returned it (the Score
record shape carries the category fields study_score, discipline_score
and events_score). -/
theorem getCadetScores_requests_single_score_row :
    ∀ (cadetId : String) (b : Backend),
      (getCadetScores cadetId b).requests =
        [.table (scoresQuery cadetId)] ∧
      (scoresQuery cadetId).table = "scores" ∧
      (scoresQuery cadetId).single = true ∧
      (scoresQuery cadetId).filters = [("cadet_id", cadetId)] ∧
      ((b.query (scoresQuery cadetId)).error = none →
        (getCadetScores cadetId b).result =
          .ok (b.query (scoresQuery cadetId)).data) := by
  intro cadetId b
  refine ⟨?_, rfl, rfl, rfl, fun h => ?_⟩
  · simp only [getCadetScores_run]; split <;> rfl
  · simp [getCadetScores_run, h]

/-- C6 witness: instantiated on a concrete backend holding one row. -/
theorem getCadetScores_requests_single_score_row_witness :
    (getCadetScores "c1" oneRowBackend).result =
      .ok (Json.obj [("id", Json.str "x")]) :=
  (getCadetScores_requests_single_score_row "c1" oneRowBackend).2.2.2.2 rfl

/-- C7: every exported operation resolves identically on two backends that
answer its request identically: the module keeps no cache or mutable state
beyond the shared client handle, so the outcome, the request trace and the
log are functions of the backend response alone. -/
theorem operations_depend_only_on_backend_response :
    (∀ b1 b2 : Backend, b1.query cadetsQuery = b2.query cadetsQuery →
      getCadets b1 = getCadets b2) ∧
    (∀ b1 b2 : Backend, b1.query tasksQuery = b2.query tasksQuery →
      getTasks b1 = getTasks b2) ∧
    (∀ b1 b2 : Backend, b1.query newsQuery = b2.query newsQuery →
      getNews b1 = getNews b2) ∧
    (∀ b1 b2 : Backend,
      b1.query achievementsQuery = b2.query achievementsQuery →
      getAchievements b1 = getAchievements b2) ∧
    (∀ b1 b2 : Backend,
      b1.query autoAchievementsQuery = b2.query autoAchievementsQuery →
      getAutoAchievements b1 = getAutoAchievements b2) ∧
    (∀ (cadetId : String) (b1 b2 : Backend),
      b1.query (cadetAchievementsQuery cadetId) =
        b2.query (cadetAchievementsQuery cadetId) →
      getCadetAchievements cadetId b1 = getCadetAchievements cadetId b2) ∧
    (∀ (cadetId : String) (b1 b2 : Backend),
      b1.query (scoresQuery cadetId) = b2.query (scoresQuery cadetId) →
      getCadetScores cadetId b1 = getCadetScores cadetId b2) ∧
    (∀ (cadetId : String) (b1 b2 : Backend),
      b1.query (scoreHistoryQuery cadetId) =
        b2.query (scoreHistoryQuery cadetId) →
      getScoreHistory cadetId b1 = getScoreHistory cadetId b2) ∧
    (∀ (env : Env) (cadetData : CadetPayload) (b1 b2 : Backend),
      b1.http (createCadetRequest env cadetData) =
        b2.http (createCadetRequest env cadetData) →
      addCadetByAdmin env cadetData b1 = addCadetByAdmin env cadetData b2) ∧
    (∀ (id : String) (cadetData : List (String × Json)) (b1 b2 : Backend),
      b1.query (updateCadetQuery id cadetData) =
        b2.query (updateCadetQuery id cadetData) →
      updateCadetByAdmin id cadetData b1 =
        updateCadetByAdmin id cadetData b2) ∧
    (∀ (id : String) (b1 b2 : Backend),
      b1.query (deleteCadetQuery id) = b2.query (deleteCadetQuery id) →
      deleteCadet id b1 = deleteCadet id b2) ∧
    (∀ (id : String) (b1 b2 : Backend),
      b1.query (cadetByIdQuery id) = b2.query (cadetByIdQuery id) →
      getCadetById id b1 = getCadetById id b2) ∧
    (∀ (email password : String) (b1 b2 : Backend),
      b1.auth (.signUp email password) = b2.auth (.signUp email password) →
      signUp email password b1 = signUp email password b2) ∧
    (∀ (email password : String) (b1 b2 : Backend),
      b1.auth (.signInWithPassword email password) =
        b2.auth (.signInWithPassword email password) →
      signIn email password b1 = signIn email password b2) ∧
    (∀ b1 b2 : Backend, b1.auth .signOut = b2.auth .signOut →
      signOut b1 = signOut b2) ∧
    (∀ b1 b2 : Backend, b1.auth .getUser = b2.auth .getUser →
      getCurrentUser b1 = getCurrentUser b2) := by
  refine ⟨?_, ?_, ?_, ?_, ?_, ?_, ?_, ?_, ?_, ?_, ?_, ?_, ?_, ?_, ?_, ?_⟩ <;>
    intros <;> rename_i h <;>
    simp only [getCadets_run, getTasks_run, getNews_run, getAchievements_run,
      getAutoAchievements_run, getCadetAchievements_run, getCadetScores_run,
      getScoreHistory_run, addCadetByAdmin_run, updateCadetByAdmin_run,
      deleteCadet_run, getCadetById_run, signUp_run, signIn_run, signOut_run,
      getCurrentUser_run] <;>
    rw [h]

/-- C7 witness: the getCadets conjunct at a concrete backend pair. -/
theorem operations_depend_only_on_backend_response_witness :
    getCadets emptyOkBackend = getCadets emptyOkBackend :=
  operations_depend_only_on_backend_response.1 emptyOkBackend emptyOkBackend
    rfl

/-- C8: every list-returning getter resolves to the empty array, not to
null, whenever the backend reports success with no data (a null data value
or an empty list). -/
theorem list_getters_resolve_empty_array_on_no_data :
    (∀ b : Backend, (b.query cadetsQuery).error = none →
      ((b.query cadetsQuery).data = Json.null ∨
        (b.query cadetsQuery).data = Json.arr []) →
      (getCadets b).result = .ok (Json.arr [])) ∧
    (∀ b : Backend, (b.query tasksQuery).error = none →
      ((b.query tasksQuery).data = Json.null ∨
        (b.query tasksQuery).data = Json.arr []) →
      (getTasks b).result = .ok (Json.arr [])) ∧
    (∀ b : Backend, (b.query newsQuery).error = none →
      ((b.query newsQuery).data = Json.null ∨
        (b.query newsQuery).data = Json.arr []) →
      (getNews b).result = .ok (Json.arr [])) ∧
    (∀ b : Backend, (b.query achievementsQuery).error = none →
      ((b.query achievementsQuery).data = Json.null ∨
        (b.query achievementsQuery).data = Json.arr []) →
      (getAchievements b).result = .ok (Json.arr [])) ∧
    (∀ b : Backend, (b.query autoAchievementsQuery).error = none →
      ((b.query autoAchievementsQuery).data = Json.null ∨
        (b.query autoAchievementsQuery).data = Json.arr []) →
      (getAutoAchievements b).result = .ok (Json.arr [])) ∧
    (∀ (cadetId : String) (b : Backend),
      (b.query (cadetAchievementsQuery cadetId)).error = none →
      ((b.query (cadetAchievementsQuery cadetId)).data = Json.null ∨
        (b.query (cadetAchievementsQuery cadetId)).data = Json.arr []) →
      (getCadetAchievements cadetId b).result = .ok (Json.arr [])) ∧
    (∀ (cadetId : String) (b : Backend),
      (b.query (scoreHistoryQuery cadetId)).error = none →
      ((b.query (scoreHistoryQuery cadetId)).data = Json.null ∨
        (b.query (scoreHistoryQuery cadetId)).data = Json.arr []) →
      (getScoreHistory cadetId b).result = .ok (Json.arr [])) := by
  refine ⟨?_, ?_, ?_, ?_, ?_, ?_, ?_⟩ <;>
    intros <;> rename_i h hd <;> rcases hd with hd | hd <;>
    simp [getCadets_run, getTasks_run, getNews_run, getAchievements_run,
      getAutoAchievements_run, getCadetAchievements_run,
      getScoreHistory_run, h, hd, jsOr, jsTruthy]

/-- C8 witness: getCadets on a backend succeeding with null data. -/
theorem list_getters_resolve_empty_array_witness :
    (getCadets nullOkBackend).result = .ok (Json.arr []) :=
  list_getters_resolve_empty_array_on_no_data.1 nullOkBackend rfl
    (Or.inl rfl)

/-- C9: the two nullable-declared getters rethrow the backend error of
their .single() request (as reported when no row matches), and on any
backend with the documented .single() semantics they can never resolve to
null: their null return type is unreachable. -/
theorem single_row_getters_throw_never_resolve_null :
    (∀ (cadetId : String) (b : Backend) (e : SupaError),
      (b.query (scoresQuery cadetId)).error = some e →
        (getCadetScores cadetId b).result = .error (.supa e)) ∧
    (∀ (id : String) (b : Backend) (e : SupaError),
      (b.query (cadetByIdQuery id)).error = some e →
        (getCadetById id b).result = .error (.supa e)) ∧
    (∀ b : Backend, SingleSucceedsWithRow b → ∀ cadetId : String,
      (getCadetScores cadetId b).result ≠ .ok Json.null) ∧
    (∀ b : Backend, SingleSucceedsWithRow b → ∀ id : String,
      (getCadetById id b).result ≠ .ok Json.null) := by
  refine ⟨?_, ?_, ?_, ?_⟩
  · intro cadetId b e h
    simp [getCadetScores_run, h]
  · intro id b e h
    simp [getCadetById_run, h]
  · intro b hb cadetId hcontra
    rw [getCadetScores_run] at hcontra
    cases h : (b.query (scoresQuery cadetId)).error with
    | some e => rw [h] at hcontra; simp at hcontra
    | none =>
        rw [h] at hcontra
        simp at hcontra
        exact hb (scoresQuery cadetId) rfl h hcontra
  · intro b hb id hcontra
    rw [getCadetById_run] at hcontra
    cases h : (b.query (cadetByIdQuery id)).error with
    | some e => rw [h] at hcontra; simp at hcontra
    | none =>
        rw [h] at hcontra
        simp at hcontra
        exact hb (cadetByIdQuery id) rfl h hcontra

/-- C9 witness: on a concrete backend answering single requests with a
row, getCadetScores does not resolve to null. -/
theorem single_row_getters_never_null_witness :
    (getCadetScores "c1" oneRowBackend).result ≠ .ok Json.null :=
  single_row_getters_throw_never_resolve_null.2.2.1 oneRowBackend
    (by intro q _ _; simp [oneRowBackend]) "c1"

/-- C10: the only request of getTasks is a select on tasks carrying the
eq filter status = active and the order created_at descending (ascending
false); on any backend respecting the eq-filter semantics, every task it
resolves has status active, so tasks of any other status are excluded. -/
theorem getTasks_only_active_ordered_newest_first :
    (∀ b : Backend, (getTasks b).requests = [.table tasksQuery]) ∧
    tasksQuery.filters = [("status", "active")] ∧
    tasksQuery.order = some ("created_at", false) ∧
    (∀ b : Backend, RespectsEqFilters b → ∀ rows : List Json,
      (getTasks b).result = .ok (.arr rows) →
      ∀ r ∈ rows, jsGet r "status" = Json.str "active") := by
  refine ⟨?_, rfl, rfl, ?_⟩
  · intro b
    simp only [getTasks_run]
    split <;> rfl
  · intro b hb rows hres
    rw [getTasks_run] at hres
    cases h : (b.query tasksQuery).error with
    | some e => rw [h] at hres; simp at hres
    | none =>
        rw [h] at hres
        simp only [jsOr] at hres
        split at hres
        · intro r hr
          simp at hres
          exact hb tasksQuery rows h hres r hr ("status", "active")
            (by simp [tasksQuery])
        · intro r hr
          simp at hres
          subst hres
          simp at hr

/-- C10 witness: the filtered-rows conjunct on a concrete
filter-respecting backend returning the empty list. -/
theorem getTasks_only_active_witness :
    ∀ r ∈ ([] : List Json), jsGet r "status" = Json.str "active" :=
  getTasks_only_active_ordered_newest_first.2.2.2 emptyOkBackend
    (by intro q rows _ hd r hr p _
        simp [emptyOkBackend] at hd
        subst hd
        simp at hr)
    [] (by rfl)

end Supa
